import Mathlib

/-!
Verification of the document-to-presentation pipeline.

The development shallowly embeds the three Python modules of the repository:

* `document_processor.py`  — segmentation of PDF / delimited-text documents,
* `prompt_generator.py`    — template-based prompt construction,
* `nano_banana_infographic_generator.py` — cached, retried image generation
  and PowerPoint assembly.

External collaborators (PyPDF2 page extraction, the Gemini remote call, the
md5 digest from `hashlib`, the filesystem, and python-pptx) are modelled as
explicit parameters or as injective encodings, as noted on each definition.
-/

set_option maxRecDepth 16384

namespace D2P

/-! ## Character classes and helpers (Python `re` semantics, ASCII fragment)

`document_processor.extract_from_txt` scans the text with the pattern
`SLIDE\s+(\d+)\s*[-–—]\s*([^\n]+)` under `re.IGNORECASE`.  The embedding
implements this one pattern directly, with Python's backtracking semantics:
greedy quantifiers, and the `\s*` before the title backtracking so that the
`[^\n]+` group can take at least one character. -/

/-- Python `\s` on the ASCII range: space, tab, newline, carriage return,
vertical tab, form feed (also the character set stripped by `str.strip()`). -/
def pySpace (c : Char) : Bool :=
  c = ' ' || c = '\t' || c = '\n' || c = '\r' || c = '\x0b' || c = '\x0c'

/-- Python `\d` on the ASCII range. -/
def pyDigit (c : Char) : Bool :=
  '0' ≤ c && c ≤ '9'

/-- The dash family accepted by the boundary-marker pattern: hyphen,
en-dash, em-dash. -/
def dashChar (c : Char) : Bool :=
  c = '-' || c = '–' || c = '—'

/-- Character of `s` at absolute index `i` (only used at in-range indices). -/
def charAt (s : List Char) (i : Nat) : Char :=
  s.getD i (Char.ofNat 0)

/-- End index of the maximal run of characters satisfying `p` starting at
index `i` (the position a greedy character-class quantifier stops at). -/
def munchEnd (p : Char → Bool) (s : List Char) (i : Nat) : Nat :=
  i + ((s.drop i).takeWhile p).length

/-- Python slice `s[a:b]`. -/
def sliceList (s : List Char) (a b : Nat) : List Char :=
  (s.drop a).take (b - a)

/-- Python `str.strip()`: drop leading and trailing whitespace. -/
def pyStrip (l : List Char) : List Char :=
  ((l.dropWhile pySpace).reverse.dropWhile pySpace).reverse

/-- Python `int` on a run of decimal digits. -/
def digitsToNat (l : List Char) : Nat :=
  l.foldl (fun a c => a * 10 + (c.toNat - 48)) 0

/-! ## Boundary-marker matching (`extract_from_txt`, lines 76–95) -/

/-- One match of the boundary-marker pattern, as produced by `re.finditer`:
the span of the whole match, the digits of group 1 (the ordinal) and the
characters of group 2 (the title text, up to end of line). -/
structure SlideMatch where
  mstart : Nat
  mend : Nat
  numStr : List Char
  titleStr : List Char
deriving DecidableEq

/-- Case-insensitive test for the literal token `SLIDE` at index `i`
(`re.IGNORECASE` on ASCII letters). -/
def matchKeyword (s : List Char) (i : Nat) : Bool :=
  ((s.drop i).take 5).map Char.toLower = "slide".data

/-- Attempt to match `SLIDE\s+(\d+)\s*[-–—]\s*([^\n]+)` at index `i`.
All quantifiers are greedy; the `\s*` before group 2 backtracks just enough
for `[^\n]+` to take at least one character, so the chosen start `p` of
group 2 is the largest whitespace-run position whose character exists and is
not a newline. -/
def matchSlideAt (s : List Char) (i : Nat) : Option SlideMatch :=
  if matchKeyword s i then
    let j1 := munchEnd pySpace s (i + 5)
    if i + 5 < j1 then
      let j2 := munchEnd pyDigit s j1
      if j1 < j2 then
        let j3 := munchEnd pySpace s j2
        if j3 < s.length && dashChar (charAt s j3) then
          let dashEnd := j3 + 1
          let kmax := munchEnd pySpace s dashEnd
          let upper := min kmax (s.length - 1)
          match ((List.range (upper + 1 - dashEnd)).map (fun t => upper - t)).find?
              (fun p => !(charAt s p = '\n')) with
          | some p =>
            let q := munchEnd (fun c => !(c = '\n')) s p
            some ⟨i, q, sliceList s j1 j2, sliceList s p q⟩
          | none => none
        else none
      else none
    else none
  else none

/-- Scanning loop of `re.finditer`: try each start position left to right,
resume after the end of every match (`max` mirrors the engine's guarantee of
forward progress; every match of this pattern is non-empty). Structural fuel
makes the definition kernel-evaluable; `findAll` supplies enough fuel. -/
def findAllAux (s : List Char) : Nat → Nat → List SlideMatch
  | 0, _ => []
  | fuel + 1, i =>
    if i < s.length then
      match matchSlideAt s i with
      | some m => m :: findAllAux s fuel (max (i + 1) m.mend)
      | none => findAllAux s fuel (i + 1)
    else []

/-- All boundary-marker matches of the document, in document order. -/
def findAll (s : List Char) : List SlideMatch :=
  findAllAux s (s.length + 1) 0

/-! ## Pages (the dicts stored in `pages_content`) -/

/-- One entry of `pages_content`: a dict with keys `page_num`, `content`,
and (for text documents only) `title`. -/
structure Page where
  page_num : Nat
  title : Option String
  content : String
deriving DecidableEq

/-- End positions paired with each match: the start of the next match, or
the document length for the last match (`extract_from_txt`, lines 90–93). -/
def matchEnds (s : List Char) (ms : List SlideMatch) : List Nat :=
  (ms.map (fun m => m.mstart)).drop 1 ++ [s.length]

/-- The page built for one match: ordinal from the matched numeral, title
from group 2 stripped, body from just after the match to the next match
start (or end of document), stripped then truncated to a 10000-character
prefix (`extract_from_txt`, lines 84–101). -/
def pageOfMatch (s : List Char) (m : SlideMatch) (endPos : Nat) : Page :=
  ⟨digitsToNat m.numStr,
   some ⟨pyStrip m.titleStr⟩,
   ⟨(pyStrip (sliceList s m.mend endPos)).take 10000⟩⟩

/-- `DocumentProcessor.extract_from_txt` (lines 66–119): find all boundary
markers; build one page per marker, or a single default page when no marker
matches anywhere. -/
def extractFromTxt (fullText : String) : List Page :=
  let s := fullText.data
  let ms := findAll s
  if ms.isEmpty then
    [⟨1, some "Document Content", ⟨s.take 10000⟩⟩]
  else
    (ms.zip (matchEnds s ms)).map (fun me => pageOfMatch s me.1 me.2)

/-- `DocumentProcessor.extract_from_pdf` (lines 32–64).  The PyPDF2 reader is
an external collaborator: the document is modelled as the list of per-page
extraction outcomes, `some text` when `page.extract_text()` returns `text`
and `none` when it raises.  Empty text is replaced by the
`"[No text content]"` sentinel, a raising page by `"[Error extracting
text]"`, and iteration covers the first `max_pages` pages. -/
def extractFromPdf (maxPages : Nat) (pages : List (Option String)) : List Page :=
  (pages.take maxPages).enum.map (fun ip =>
    match ip.2 with
    | some t => ⟨ip.1 + 1, none, if t = "" then "[No text content]" else t⟩
    | none => ⟨ip.1 + 1, none, "[Error extracting text]"⟩)

/-! ## Prompt generation (`prompt_generator.py`)

`PromptGenerator.generate_prompts` (lines 28–160) builds one prompt dict per
content entry (up to `num_slides`).  The prompt string is selected by the
configured template name — `professional`, `colorful`, `minimal`, or a
generic fallback for any other name — and interpolates the entry's title and
content into the template's fixed framing text. -/

/-- Fixed framing of the `professional` template before the title
(lines 43–65 of `prompt_generator.py`). -/
def profPre : String :=
  "\nYou are a professional consulting slide designer (McKinsey/BCG style).\n\nCreate a SINGLE professional slide image with EXACTLY these requirements:\n\nCOLORS TO USE (MANDATORY):\n- Navy Blue (#1F4E78) for title and headers\n- Charcoal Gray (#4A4A4A) for body text\n- White (#FFFFFF) for background\n- Light Gray (#E8E8E8) for subtle elements\n- Teal (#2E8B9E) for accents ONLY\n- ABSOLUTELY NO OTHER COLORS\n\nSTYLE (MANDATORY):\n✓ Flat design (NO 3D, NO shadows, NO gradients)\n✓ Minimal text, MAXIMUM white space\n✓ Professional sans-serif font\n✓ Clean geometric shapes only\n✓ Executive appearance\n✓ Similar to McKinsey/BCG presentations\n\nSLIDE LAYOUT:\nTitle: "

/-- Fixed framing of the `professional` template after the content
(lines 67–70). -/
def profPost : String :=
  "\n\nCreate a clean, professional slide with navy blue title, gray text, white background, and lots of empty space.\nResolution: 2752x1536 (2K, 16:9)\n"

/-- Fixed framing of the `colorful` template before the title
(lines 73–97). -/
def colorPre : String :=
  "\nYou are a modern, vibrant slide designer (Airbnb/Startup style).\n\nCreate a SINGLE colorful slide image with EXACTLY these requirements:\n\nCOLORS TO USE (MANDATORY - USE MANY COLORS):\n- Electric Blue (#0066FF)\n- Hot Pink (#FF1493)\n- Bright Green (#00CC00)\n- Sunny Yellow (#FFD700)\n- Orange (#FF6600)\n- Purple (#9900FF)\n- MIX MULTIPLE COLORS - NOT MONOTONE!\n\nSTYLE (MANDATORY):\n✓ Bold and vibrant design\n✓ Modern and trendy\n✓ Dynamic layouts\n✓ Colorful shapes and icons\n✓ Large, impactful text\n✓ Fun and energetic\n✓ Similar to Airbnb or modern startups\n\nSLIDE LAYOUT:\nTitle: "

/-- Fixed framing of the `colorful` template after the content
(lines 99–102). -/
def colorPost : String :=
  "\n\nCreate a BRIGHT, COLORFUL slide with multiple vibrant colors, bold fonts, and energetic design.\nResolution: 2752x1536 (2K, 16:9)\n"

/-- Fixed framing of the `minimal` template before the title
(lines 105–127). -/
def minimalPre : String :=
  "\nYou are a minimalist slide designer (Apple/Google style).\n\nCreate a SINGLE minimal slide image with EXACTLY these requirements:\n\nCOLORS TO USE (MANDATORY - MINIMAL COLORS ONLY):\n- Black (#000000) for text and essential elements\n- White (#FFFFFF) for background\n- Light Gray (#F5F5F5) for subtle elements\n- ONE accent color ONLY: Blue (#0066CC)\n- NO OTHER COLORS ALLOWED\n\nSTYLE (MANDATORY):\n✓ Maximum white space (50%+ of slide)\n✓ Minimal text - only essential information\n✓ Clean lines and simple shapes\n✓ NO decorations or unnecessary elements\n✓ Sophisticated simplicity\n✓ Similar to Apple or Google design\n\nSLIDE LAYOUT:\nTitle: "

/-- Fixed framing of the `minimal` template after the content
(lines 129–131). -/
def minimalPost : String :=
  "\n\nCreate a CLEAN, MINIMAL slide with mostly white space, black text, simple design, and one accent color.\nResolution: 2752x1536 (2K, 16:9)\n"

/-- Fixed framing of the fallback template before the title
(lines 134–136). -/
def genericPre : String :=
  "\nCreate a professional slide:\nTitle: "

/-- Fixed framing of the fallback template after the content
(lines 138–139). -/
def genericPost : String :=
  "\nResolution: 2752x1536 (2K, 16:9)\n"

/-- The `\nContent: ` separator between interpolated title and content,
shared by all four templates. -/
def contentSep : String :=
  "\nContent: "

/-- The `professional` template's prompt for a given title and content. -/
def professionalPrompt (title content : String) : String :=
  profPre ++ (title ++ (contentSep ++ (content ++ profPost)))

/-- The `colorful` template's prompt for a given title and content. -/
def colorfulPrompt (title content : String) : String :=
  colorPre ++ (title ++ (contentSep ++ (content ++ colorPost)))

/-- The `minimal` template's prompt for a given title and content. -/
def minimalPrompt (title content : String) : String :=
  minimalPre ++ (title ++ (contentSep ++ (content ++ minimalPost)))

/-- The fallback prompt used for every template name other than
`professional`, `colorful` and `minimal`. -/
def genericPrompt (title content : String) : String :=
  genericPre ++ (title ++ (contentSep ++ (content ++ genericPost)))

/-- The branch on `self.template_name` (lines 42–139). -/
def promptFor (templateName title content : String) : String :=
  if templateName = "professional" then professionalPrompt title content
  else if templateName = "colorful" then colorfulPrompt title content
  else if templateName = "minimal" then minimalPrompt title content
  else genericPrompt title content

/-- Python `str.capitalize()`: first character uppercased, the rest
lowercased. -/
def strCapitalize (s : String) : String :=
  match s.data with
  | [] => ""
  | c :: rest => ⟨c.toUpper :: rest.map Char.toLower⟩

/-- A value of a prompt dict: `slide_number` holds an integer, every other
key holds a string. -/
inductive PVal where
  | nat (n : Nat)
  | str (s : String)
deriving DecidableEq

/-- One entry of the `content` list fed to `generate_prompts`: a dict read
through `slide.get('page_num', 1)`, `slide.get('title', 'Slide')` and
`slide.get('content', '')` — `none` models an absent key. -/
structure SlideDict where
  page_num : Option Nat
  title : Option String
  content : Option String
deriving DecidableEq

/-- The dict appended for one slide (lines 150–158), in source key order. -/
def mkPromptDict (templateName : String) (slide : SlideDict) : List (String × PVal) :=
  let slideNum := slide.page_num.getD 1
  let title := slide.title.getD "Slide"
  let slideContent := slide.content.getD ""
  [("slide_number", PVal.nat slideNum),
   ("title", PVal.str title),
   ("type", PVal.str templateName),
   ("content", PVal.str slideContent),
   ("prompt", PVal.str (promptFor templateName title slideContent)),
   ("template", PVal.str templateName),
   ("design_level", PVal.str ("Professional - " ++ (strCapitalize templateName ++ " style")))]

/-- `PromptGenerator.generate_prompts` (lines 28–160): one dict per entry of
`content[:num_slides]`, in input order; `num_slides=None` means the whole
list. -/
def generatePrompts (templateName : String) (content : List SlideDict)
    (numSlides : Option Nat) : List (List (String × PVal)) :=
  (content.take (numSlides.getD content.length)).map (mkPromptDict templateName)

/-! ## Generation orchestrator (`nano_banana_infographic_generator.py`)

`GeminiInfographicGenerator.generate_premium_infographic` (lines 71–236)
builds a prompt from the infographic dict, consults a file cache, and on a
miss runs a bounded retry loop against the remote Gemini call.  Externals
are modelled explicitly:

* image bytes are a `List Nat` (only length and identity matter);
* the remote call is an oracle `Nat → Outcome`, indexed by the number of
  remote calls made so far — one `Outcome` per issued call, covering both a
  raised exception and a returned list of response parts;
* the cache directory is an association list from key to bytes carried in a
  state record, together with an event trace recording backoff waits and
  remote calls in order;
* `_get_cache_key` is `hashlib.md5(prompt).hexdigest()`, a deterministic
  digest of the prompt supplied by an external library; it is modelled as
  the prompt string itself, an injective deterministic digest. -/

/-- One part of a remote response: an image (`part.as_image()` non-null) or
a text part. -/
inductive RPart where
  | img (bs : List Nat)
  | txt (s : String)
deriving DecidableEq

/-- Outcome of one remote generation call: a raised exception with message,
or a response carrying a list of parts. -/
inductive Outcome where
  | err (msg : String)
  | ok (parts : List RPart)
deriving DecidableEq

/-- Observable event of the orchestrator: a backoff wait of the given number
of time units, or one remote generation call. -/
inductive Event where
  | wait (t : Nat)
  | rcall
deriving DecidableEq

/-- State threaded through the orchestrator: the cache contents and the
event trace so far (earliest first). -/
structure GenState where
  cache : List (String × List Nat)
  trace : List Event
deriving DecidableEq

/-- Whether an event is a remote call. -/
def isRcall : Event → Bool
  | Event.rcall => true
  | Event.wait _ => false

/-- Number of remote calls recorded in the trace; used to index the oracle. -/
def callsMade (st : GenState) : Nat :=
  st.trace.countP isRcall

/-- `_get_cache_key` (lines 52–55): deterministic digest of the prompt.
The md5 hex digest itself is an external `hashlib` primitive; it is modelled
as the prompt string, an injective deterministic digest. -/
def getCacheKey (prompt : String) : String :=
  prompt

/-- The first image part of a response, if any (lines 191–213: the loop over
`response.parts` breaks at the first part whose `as_image()` is non-null;
text parts are skipped). -/
def firstImage (parts : List RPart) : Option (List Nat) :=
  parts.findSome? (fun p =>
    match p with
    | RPart.img bs => some bs
    | RPart.txt _ => none)

/-- The validity test of line 215, `if image_bytes and len(image_bytes) >
1000`: the bytes are truthy (non-empty) and longer than 1000. -/
def validBytes (bs : List Nat) : Bool :=
  !bs.isEmpty && decide (1000 < bs.length)

/-- Whether one remote outcome yields a qualifying image: a non-raising
response whose first image part passes `validBytes`. -/
def qualifies (o : Outcome) : Bool :=
  match o with
  | Outcome.err _ => false
  | Outcome.ok parts =>
    match firstImage parts with
    | some bs => validBytes bs
    | none => false

/-- The retry loop of lines 155–236: structural recursion on the number of
remaining attempts (`for attempt in range(max_retries)`), carrying the
current attempt index.  Before every attempt after the first the loop waits
`min(30, 2 ** attempt)`; a qualifying image is cached (when `use_cache`) and
returned; a non-qualifying response or a raised exception falls through to
the next attempt; exhausting the attempts returns `none`. -/
def genLoop (oracle : Nat → Outcome) (key : String) (useCache : Bool) :
    Nat → Nat → GenState → Option (List Nat) × GenState
  | 0, _, st => (none, st)
  | fuel + 1, attempt, st =>
    let st1 := if 0 < attempt then
        { st with trace := st.trace ++ [Event.wait (min 30 (2 ^ attempt))] }
      else st
    let outcome := oracle (callsMade st1)
    let st2 := { st1 with trace := st1.trace ++ [Event.rcall] }
    match outcome with
    | Outcome.err _ => genLoop oracle key useCache fuel (attempt + 1) st2
    | Outcome.ok parts =>
      match firstImage parts with
      | some bs =>
        if validBytes bs then
          (some bs,
           if useCache then { st2 with cache := (key, bs) :: st2.cache } else st2)
        else genLoop oracle key useCache fuel (attempt + 1) st2
      | none => genLoop oracle key useCache fuel (attempt + 1) st2

/-- One swimlane dict of the infographic data, read through
`lane.get("name", "")` and `lane.get("color", "")`. -/
structure Lane where
  name : Option String
  color : Option String
deriving DecidableEq

/-- The infographic dict consumed by the generator, read through `.get` with
the defaults of lines 80–85; `imagePath` is the `_image_path` key consumed
by `create_presentation` (line 253). -/
structure InfoData where
  title : Option String
  dtype : Option String
  content : Option String
  swimlanes : List Lane
  steps : List String
  colors : Option String
  imagePath : Option String
deriving DecidableEq

/-- `swimlane_text` (lines 88–94): empty for an empty list, otherwise a
header plus one `- name (color)` line per lane. -/
def swimlaneText (lanes : List Lane) : String :=
  if lanes.isEmpty then ""
  else "\n\nSWIMLANES:\n" ++ String.join (lanes.map (fun l =>
    "- " ++ (l.name.getD "" ++ (" (" ++ (l.color.getD "" ++ ")\n")))))

/-- `steps_text` (lines 96–99): empty for an empty list, otherwise a header
plus one `i. step` line per step, numbered from 1. -/
def stepsText (steps : List String) : String :=
  if steps.isEmpty then ""
  else "\n\nPROCESS STEPS:\n" ++ String.join (steps.enum.map (fun is =>
    toString (is.1 + 1) ++ (". " ++ (is.2 ++ "\n"))))

/-- Fixed text of the visual prompt before the title (lines 102–105). -/
def vpPart1 : String :=
  "\nCreate a PREMIUM, KIMI-QUALITY professional infographic:\n\nTITLE: \""

/-- Fixed text between title and diagram type (lines 105–107). -/
def vpPart2 : String :=
  "\"\n\nDIAGRAM TYPE: "

/-- Fixed text between diagram type and content (lines 107–110). -/
def vpPart3 : String :=
  "\n\nCONTENT:\n"

/-- Fixed text between the steps text and the colors (lines 113–114). -/
def vpPart4 : String :=
  "\n\nCOLOR SCHEME: "

/-- Fixed tail of the visual prompt after the colors (lines 114–143). -/
def vpPart5 : String :=
  "\n\nPREMIUM DESIGN REQUIREMENTS:\n- Format: Professional infographic (16:9 aspect ratio, 2K resolution)\n- Quality Level: PREMIUM - Professional, polished, visually stunning\n- Style: Modern, corporate, high-end professional design\n- Layout: Clear visual hierarchy, well-organized structure\n- Colors: Vibrant, professional, distinct, visually appealing colors\n- Visual Elements: Premium icons, arrows, connectors, design elements\n- Typography: Excellent readability, professional fonts, good contrast\n- Polish: High-quality, professional finish for business presentations\n- Complexity: Rich, multi-element infographic with visual depth\n- Professional Standard: Commercial-grade, business-ready\n- Visual Impact: Impressive, eye-catching, memorable design\n- Swimlanes: Create colored horizontal swimlanes with clear visual distinction\n- Process Flow: Show step-by-step process with connections and arrows\n- Icons: Use appropriate icons for different swimlanes and activities\n- Detail: Include all specified swimlanes, steps, and organizational elements\n- Design Excellence: Professional quality infographic ready for executives\n\nCRITICAL INSTRUCTIONS:\n- Create the BEST POSSIBLE visual design\n- Focus on professional aesthetics and visual balance\n- Include all elements specified in the prompt\n- Use professional, business-appropriate colors\n- Ensure text is legible and well-placed\n- Make this suitable for corporate presentations\n\nGenerate this as a stunning, professional infographic ready for business use.\n"

/-- The `visual_prompt` f-string of lines 102–143, interpolating the dict's
fields (with their `.get` defaults) into the fixed framing. -/
def visualPrompt (d : InfoData) : String :=
  vpPart1 ++ (d.title.getD "Infographic" ++ (vpPart2 ++ (d.dtype.getD "swimlane" ++
    (vpPart3 ++ (d.content.getD "" ++ ("\n" ++ (swimlaneText d.swimlanes ++
      ("\n" ++ (stepsText d.steps ++ (vpPart4 ++
        (d.colors.getD "professional multi-color" ++ vpPart5)))))))))))

/-- `generate_premium_infographic` (lines 71–236): build the prompt; when
`use_cache` holds and the cache file for the prompt's digest exists with
truthy (non-empty) contents, return those bytes untouched; otherwise run the
retry loop, which caches a validated success only when `use_cache` holds. -/
def generatePremiumInfographic (oracle : Nat → Outcome) (maxRetries : Nat)
    (d : InfoData) (useCache : Bool) (st : GenState) :
    Option (List Nat) × GenState :=
  let key := getCacheKey (visualPrompt d)
  let hit : Option (List Nat) :=
    if useCache then
      match List.lookup key st.cache with
      | some bs => if bs.isEmpty then none else some bs
      | none => none
    else none
  match hit with
  | some bs => (some bs, st)
  | none => genLoop oracle key useCache maxRetries 0 st

/-! ## Assembly (`create_presentation`, lines 238–268)

python-pptx is the external presentation writer: the deck is modelled as the
list of slides in creation order, each carrying the path of the full-bleed
picture placed on it (or `none` for a slide left without a picture).  The
filesystem check `os.path.exists` and the possibility of
`slide.shapes.add_picture` raising are oracles `String → Bool`. -/

/-- Result of `create_presentation`: the saved deck, and the returned pair
`(output_path, slides_created)`. -/
structure PresResult where
  deck : List (Option String)
  outputPath : String
  slidesCreated : Nat
deriving DecidableEq

/-- The picture placed on the slide created for one artifact: present only
when the `_image_path` key holds a truthy (non-empty) path, the file exists,
and `add_picture` does not raise (lines 253–265). -/
def slidePicture (fsExists picOk : String → Bool) (d : InfoData) : Option String :=
  match d.imagePath with
  | some p => if p ≠ "" && fsExists p then (if picOk p then some p else none) else none
  | none => none

/-- One iteration of the `create_presentation` loop (lines 249–265): append
the slide created for this artifact and bump the counter when a picture was
successfully placed. -/
def presStep (fsExists picOk : String → Bool)
    (acc : List (Option String) × Nat) (d : InfoData) :
    List (Option String) × Nat :=
  let pic := slidePicture fsExists picOk d
  (acc.1 ++ [pic], acc.2 + (if pic.isSome then 1 else 0))

/-- `create_presentation` (lines 238–268): one slide is added per artifact,
unconditionally; the picture placement and the success counter are guarded
by the path check; the deck is saved and `(output_path, slides_created)` is
returned. -/
def createPresentation (fsExists picOk : String → Bool) (infos : List InfoData)
    (outputPath : String) : PresResult :=
  let r := infos.foldl (presStep fsExists picOk) ([], 0)
  ⟨r.1, outputPath, r.2⟩

/-! ## Derived trace vocabulary and concrete fixtures -/

/-- The event trace produced by a run of the retry loop in which every
attempt fails, with `fuel` attempts remaining starting at attempt index
`attempt`: no wait before attempt 0, a wait of `min 30 (2 ^ i)` before every
attempt `i > 0`, one remote call per attempt.  `retryTrace R 0` is the trace
of a full failed run with `max_retries = R`. -/
def retryTrace : Nat → Nat → List Event
  | 0, _ => []
  | fuel + 1, attempt =>
    ((if 0 < attempt then [Event.wait (min 30 (2 ^ attempt))] else [])
      ++ [Event.rcall]) ++ retryTrace fuel (attempt + 1)

/-- Fresh orchestrator state: empty cache, empty trace. -/
def st0 : GenState := ⟨[], []⟩

/-- An infographic dict with every key absent: all `.get` defaults apply. -/
def emptyInfo : InfoData := ⟨none, none, none, [], [], none, none⟩

/-- A remote oracle whose every call returns a text part followed by a
1500-byte image — a qualifying image on the first attempt. -/
def okOracle : Nat → Outcome :=
  fun _ => Outcome.ok [RPart.txt "description", RPart.img (List.replicate 1500 7)]

/-- A remote oracle whose every call raises. -/
def errOracle : Nat → Outcome :=
  fun _ => Outcome.err "429 Resource has been exhausted"

/-- A 1200-byte image as found in a warm cache. -/
def cachedBytes : List Nat := List.replicate 1200 5

/-- A state whose cache already holds `cachedBytes` under the digest of
`emptyInfo`'s prompt. -/
def stc : GenState := ⟨[(getCacheKey (visualPrompt emptyInfo), cachedBytes)], []⟩

/-- A content entry with ordinal 2. -/
def segA : SlideDict := ⟨some 2, some "T", some "C"⟩

/-- A content entry with ordinal 999 and the same title and body as `segA`. -/
def segB : SlideDict := ⟨some 999, some "T", some "C"⟩

/-- An artifact dict with no `_image_path` key. -/
def artNone : InfoData := ⟨none, none, none, [], [], none, none⟩

/-- A two-marker delimited-text document. -/
def sampleDoc : String :=
  "SLIDE 2 - Systems Landscape\nbody A\nSLIDE 5 - Future Vision\nbody B"

/-- A document whose single boundary marker has a whitespace-only title:
the `\s*` before the title group backtracks and the `[^\n]+` group matches
the trailing space, which strips to the empty string. -/
def badTitleDoc : String := "SLIDE 1 - "

/-! ## Helper lemmas -/

/-- Stripping cannot erase a list that contains a non-whitespace character. -/
theorem pyStrip_ne_nil_of_mem {l : List Char} {c : Char}
    (hm : c ∈ l) (hc : pySpace c = false) : pyStrip l ≠ [] := by
  intro h
  have h0 : (l.dropWhile pySpace).reverse.dropWhile pySpace = [] := by
    have h2 : pyStrip l = [] := h
    unfold pyStrip at h2
    exact List.reverse_eq_nil_iff.mp h2
  have hall : ∀ x ∈ (l.dropWhile pySpace).reverse, pySpace x = true :=
    List.dropWhile_eq_nil_iff.mp h0
  have hmem : c ∈ l.dropWhile pySpace := by
    have hsplit := List.takeWhile_append_dropWhile pySpace l
    rw [← hsplit] at hm
    rcases List.mem_append.mp hm with h2 | h2
    · exact absurd (List.mem_takeWhile_imp h2) (by simp [hc])
    · exact h2
  have := hall c (List.mem_reverse.mpr hmem)
  simp [hc] at this

/-- The `create_presentation` fold, with general accumulator. -/
theorem presStep_foldl (fsExists picOk : String → Bool) :
    ∀ (infos : List InfoData) (acc : List (Option String)) (n : Nat),
      infos.foldl (presStep fsExists picOk) (acc, n)
        = (acc ++ infos.map (slidePicture fsExists picOk),
           n + (infos.map (slidePicture fsExists picOk)).countP Option.isSome) := by
  intro infos
  induction infos with
  | nil => intro acc n; simp
  | cons d tl ih =>
    intro acc n
    rw [List.foldl_cons, presStep, ih]
    cases hp : (slidePicture fsExists picOk d).isSome <;>
      (simp [List.countP_cons, hp, List.append_assoc]; try omega)

/-! ## Claim theorems -/

/-- Claim C7: for every delimited-text document in which no boundary marker
matches anywhere, segmentation yields exactly one segment with ordinal 1,
the default title `Document Content`, and body equal to the entire document
text truncated to the 10000-character cap. -/
theorem claim7_no_markers (fullText : String)
    (h : findAll fullText.data = []) :
    extractFromTxt fullText
      = [⟨1, some "Document Content", ⟨fullText.data.take 10000⟩⟩] := by
  unfold extractFromTxt
  simp [h]

/-- Witness for C7 at a concrete marker-free document. -/
theorem claim7_witness :
    findAll "just some plain text".data = []
    ∧ extractFromTxt "just some plain text"
        = [⟨1, some "Document Content", ⟨"just some plain text".data.take 10000⟩⟩] :=
  ⟨by decide, claim7_no_markers "just some plain text" (by decide)⟩

/-- Claim C8: for every readable paginated document, segmentation yields
exactly `min P max_pages` segments numbered consecutively from 1; a page
extracted with empty text gets the `[No text content]` sentinel, a raising
page gets the `[Error extracting text]` sentinel, and in both cases the
remaining pages are still processed. -/
theorem claim8_pdf_pages (maxPages : Nat) (pages : List (Option String)) :
    (extractFromPdf maxPages pages).length = min maxPages pages.length
    ∧ (extractFromPdf maxPages pages).map (fun pg => pg.page_num)
        = List.range' 1 (min maxPages pages.length)
    ∧ (extractFromPdf maxPages pages).map (fun pg => pg.content)
        = (pages.take maxPages).map (fun o =>
            match o with
            | some t => if t = "" then "[No text content]" else t
            | none => "[Error extracting text]")
    ∧ (extractFromPdf maxPages pages).map (fun pg => pg.title)
        = List.replicate (min maxPages pages.length) none := by
  refine ⟨?_, ?_, ?_, ?_⟩
  · simp [extractFromPdf]
  · rw [extractFromPdf, List.map_map]
    have h2 : ((fun pg : Page => pg.page_num) ∘ fun ip : Nat × Option String =>
        (match ip.2 with
          | some t => (⟨ip.1 + 1, none, if t = "" then "[No text content]" else t⟩ : Page)
          | none => (⟨ip.1 + 1, none, "[Error extracting text]"⟩ : Page)))
        = ((fun n => n + 1) ∘ Prod.fst) := by
      funext ip; rcases ip with ⟨i, o⟩; cases o <;> rfl
    rw [h2, ← List.map_map, List.enum_map_fst, List.length_take,
        List.range'_eq_map_range]
    rw [show (fun n : Nat => n + 1) = (fun n : Nat => 1 + n) from
      funext (fun n => Nat.add_comm n 1)]
  · rw [extractFromPdf, List.map_map]
    have h2 : ((fun pg : Page => pg.content) ∘ fun ip : Nat × Option String =>
        (match ip.2 with
          | some t => (⟨ip.1 + 1, none, if t = "" then "[No text content]" else t⟩ : Page)
          | none => (⟨ip.1 + 1, none, "[Error extracting text]"⟩ : Page)))
        = ((fun o : Option String =>
            (match o with
             | some t => if t = "" then "[No text content]" else t
             | none => "[Error extracting text]")) ∘ Prod.snd) := by
      funext ip; rcases ip with ⟨i, o⟩; cases o <;> rfl
    rw [h2, ← List.map_map, List.enum_map_snd]
  · rw [extractFromPdf, List.map_map]
    have h2 : ((fun pg : Page => pg.title) ∘ fun ip : Nat × Option String =>
        (match ip.2 with
          | some t => (⟨ip.1 + 1, none, if t = "" then "[No text content]" else t⟩ : Page)
          | none => (⟨ip.1 + 1, none, "[Error extracting text]"⟩ : Page)))
        = (fun _ : Nat × Option String => (none : Option String)) := by
      funext ip; rcases ip with ⟨i, o⟩; cases o <;> rfl
    rw [h2, List.map_const', List.enum_length, List.length_take]

/-- Claim C1, counterexample: an artifact with no backing image still
contributes a slide to the deck.  With a single artifact carrying no
`_image_path` (and a filesystem on which nothing exists), the saved deck has
one slide while the returned count of successful slides is 0 — contradicting
the claim that such an artifact contributes no slide to the deck. -/
theorem claim1_counterexample :
    (createPresentation (fun _ => false) (fun _ => true) [artNone] "out.pptx").deck.length = 1
    ∧ (createPresentation (fun _ => false) (fun _ => true) [artNone] "out.pptx").slidesCreated = 0
    ∧ (1 : Nat) ≠ 0 := by
  refine ⟨rfl, rfl, by decide⟩

/-- Claim C1, amended: `create_presentation` creates one slide per artifact
(missing artifacts yield slides without a picture), places the image only
for artifacts whose backing file is a truthy path that exists and whose
placement does not raise, keeps the deck in request order, and returns the
number of pictures actually placed. -/
theorem claim1_assembly (fsExists picOk : String → Bool)
    (infos : List InfoData) (out : String) :
    (createPresentation fsExists picOk infos out).deck
        = infos.map (slidePicture fsExists picOk)
    ∧ (createPresentation fsExists picOk infos out).deck.length = infos.length
    ∧ (createPresentation fsExists picOk infos out).slidesCreated
        = (infos.map (slidePicture fsExists picOk)).countP Option.isSome
    ∧ (createPresentation fsExists picOk infos out).outputPath = out := by
  have hf := presStep_foldl fsExists picOk infos [] 0
  refine ⟨?_, ?_, ?_, rfl⟩
  · show (infos.foldl (presStep fsExists picOk) ([], 0)).1 = _
    rw [hf]; simp
  · show (infos.foldl (presStep fsExists picOk) ([], 0)).1.length = _
    rw [hf]; simp
  · show (infos.foldl (presStep fsExists picOk) ([], 0)).2 = _
    rw [hf]; simp

/-- Claim C2, counterexample: the visual type attached to a request is not a
function of the segment's ordinal.  Two runs on the very same ordinal-2
segment produce types `professional` and `colorful` depending only on the
configured template name, and an unmapped ordinal (999) gets the same type
as ordinal 2 — there is no ordinal-indexed lookup table and no dedicated
archetype for ordinal 2. -/
theorem claim2_counterexample :
    (generatePrompts "professional" [segA] none).map (fun d2 => List.lookup "type" d2)
        = [some (PVal.str "professional")]
    ∧ (generatePrompts "colorful" [segA] none).map (fun d2 => List.lookup "type" d2)
        = [some (PVal.str "colorful")]
    ∧ (generatePrompts "professional" [segB] none).map (fun d2 => List.lookup "type" d2)
        = [some (PVal.str "professional")]
    ∧ PVal.str "professional" ≠ PVal.str "colorful" := by
  refine ⟨rfl, rfl, rfl, by decide⟩

/-- Claim C2, amended: the prompt generator selects each request's visual
type and prompt solely from the configured template name — every generated
dict's `type` equals the template name, independent of the segment's ordinal
and content — and any template name other than `professional`, `colorful`
and `minimal` falls back to the generic prompt. -/
theorem claim2_template_selection (templateName : String)
    (content : List SlideDict) (numSlides : Option Nat) :
    (generatePrompts templateName content numSlides).map (fun d2 => List.lookup "type" d2)
        = List.replicate (min (numSlides.getD content.length) content.length)
            (some (PVal.str templateName))
    ∧ (∀ s : SlideDict,
        templateName ≠ "professional" → templateName ≠ "colorful" →
        templateName ≠ "minimal" →
        List.lookup "prompt" (mkPromptDict templateName s)
          = some (PVal.str (genericPrompt (s.title.getD "Slide") (s.content.getD "")))) := by
  constructor
  · rw [generatePrompts, List.map_map]
    have h2 : ((fun d2 : List (String × PVal) => List.lookup "type" d2)
          ∘ mkPromptDict templateName)
        = (fun _ : SlideDict => some (PVal.str templateName)) := by
      funext s; rfl
    rw [h2, List.map_const', List.length_take]
  · intro s h1 h2 h3
    show List.lookup "prompt" (mkPromptDict templateName s) = _
    simp only [mkPromptDict, promptFor, if_neg h1, if_neg h2, if_neg h3]
    rfl

/-- Witness for C2's amended theorem at an unrecognized template name. -/
theorem claim2_witness :
    (generatePrompts "fancy" [segA] none).map (fun d2 => List.lookup "type" d2)
        = List.replicate (min ((none : Option Nat).getD [segA].length) [segA].length)
            (some (PVal.str "fancy"))
    ∧ List.lookup "prompt" (mkPromptDict "fancy" segA)
        = some (PVal.str (genericPrompt (segA.title.getD "Slide") (segA.content.getD ""))) :=
  ⟨(claim2_template_selection "fancy" [segA] none).1,
   (claim2_template_selection "fancy" [segA] none).2 segA
     (by decide) (by decide) (by decide)⟩

/-- Claim C10: `generate_prompts` returns exactly
`min num_slides (length content)` dicts (`num_slides=None` meaning the whole
list), one per input entry in input order, and each dict has exactly the
keys `slide_number`, `title`, `type`, `content`, `prompt`, `template`,
`design_level` — in particular no `colors` and no `special_instructions`
key. -/
theorem claim10_prompt_dicts (templateName : String)
    (content : List SlideDict) (numSlides : Option Nat) :
    generatePrompts templateName content numSlides
        = (content.take (numSlides.getD content.length)).map (mkPromptDict templateName)
    ∧ (generatePrompts templateName content numSlides).length
        = min (numSlides.getD content.length) content.length
    ∧ (generatePrompts templateName content numSlides).map (fun d2 => d2.map Prod.fst)
        = List.replicate (min (numSlides.getD content.length) content.length)
            ["slide_number", "title", "type", "content", "prompt", "template",
             "design_level"]
    ∧ ∀ d2 ∈ generatePrompts templateName content numSlides,
        ¬ ("colors" ∈ d2.map Prod.fst)
        ∧ ¬ ("special_instructions" ∈ d2.map Prod.fst) := by
  have hkeys : (generatePrompts templateName content numSlides).map
        (fun d2 => d2.map Prod.fst)
      = List.replicate (min (numSlides.getD content.length) content.length)
          ["slide_number", "title", "type", "content", "prompt", "template",
           "design_level"] := by
    rw [generatePrompts, List.map_map]
    have h2 : ((fun d2 : List (String × PVal) => d2.map Prod.fst)
          ∘ mkPromptDict templateName)
        = (fun _ : SlideDict =>
            (["slide_number", "title", "type", "content", "prompt", "template",
              "design_level"] : List String)) := by
      funext s; rfl
    rw [h2, List.map_const', List.length_take]
  refine ⟨rfl, by simp [generatePrompts], hkeys, ?_⟩
  intro d2 hd2
  have hm : d2.map Prod.fst
      ∈ (generatePrompts templateName content numSlides).map
          (fun d3 => d3.map Prod.fst) :=
    List.mem_map_of_mem (fun d3 => d3.map Prod.fst) hd2
  rw [hkeys] at hm
  have heq := List.eq_of_mem_replicate hm
  rw [heq]
  refine ⟨by decide, by decide⟩

/-- Witness for C10 at a concrete content list and slide budget. -/
theorem claim10_witness :
    generatePrompts "professional" [segA, segB] (some 5)
        = ([segA, segB].take ((some 5 : Option Nat).getD [segA, segB].length)).map
            (mkPromptDict "professional")
    ∧ (generatePrompts "professional" [segA, segB] (some 5)).length
        = min ((some 5 : Option Nat).getD [segA, segB].length) [segA, segB].length
    ∧ ¬ ("colors" ∈ (mkPromptDict "professional" segA).map Prod.fst) :=
  ⟨(claim10_prompt_dicts "professional" [segA, segB] (some 5)).1,
   (claim10_prompt_dicts "professional" [segA, segB] (some 5)).2.1,
   ((claim10_prompt_dicts "professional" [segA, segB] (some 5)).2.2.2
     (mkPromptDict "professional" segA) (by simp [generatePrompts])).1⟩

/-- Two string concatenations differ when their left parts differ at a
common in-range character position. -/
theorem append_ne_append_of_getElem (a b x y : String) (k : Nat)
    (ha : k < a.data.length) (hb : k < b.data.length)
    (hne : a.data[k]? ≠ b.data[k]?) :
    a ++ x ≠ b ++ y := by
  intro h
  apply hne
  have hd : (a ++ x).data = (b ++ y).data := congrArg String.data h
  rw [String.data_append, String.data_append] at hd
  rw [← List.getElem?_append_left ha, ← List.getElem?_append_left hb, hd]

/-- A template's interpolated prompt is never the raw content alone: the
surrounding framing makes it strictly longer. -/
theorem prompt_ne_content (pre sep post t c : String) (hpre : 0 < pre.length) :
    pre ++ (t ++ (sep ++ (c ++ post))) ≠ c := by
  intro h
  have hl := congrArg String.length h
  simp only [String.length_append] at hl
  omega

/-- Claim C9: every generated prompt is the template's canned framing
interpolated with the segment's title and body — never the raw body alone —
and for a fixed title and body the four template branches (`professional`,
`colorful`, `minimal`, and the generic fallback) produce pairwise distinct
prompt strings and hence pairwise distinct cache digests. -/
theorem claim9_prompt_distinctness :
    (∀ t c : String,
        professionalPrompt t c ≠ c ∧ colorfulPrompt t c ≠ c
        ∧ minimalPrompt t c ≠ c ∧ genericPrompt t c ≠ c)
    ∧ (∀ t c : String,
        professionalPrompt t c ≠ colorfulPrompt t c
        ∧ professionalPrompt t c ≠ minimalPrompt t c
        ∧ professionalPrompt t c ≠ genericPrompt t c
        ∧ colorfulPrompt t c ≠ minimalPrompt t c
        ∧ colorfulPrompt t c ≠ genericPrompt t c
        ∧ minimalPrompt t c ≠ genericPrompt t c)
    ∧ (∀ t c : String,
        getCacheKey (professionalPrompt t c) ≠ getCacheKey (colorfulPrompt t c)
        ∧ getCacheKey (professionalPrompt t c) ≠ getCacheKey (minimalPrompt t c)
        ∧ getCacheKey (professionalPrompt t c) ≠ getCacheKey (genericPrompt t c)
        ∧ getCacheKey (colorfulPrompt t c) ≠ getCacheKey (minimalPrompt t c)
        ∧ getCacheKey (colorfulPrompt t c) ≠ getCacheKey (genericPrompt t c)
        ∧ getCacheKey (minimalPrompt t c) ≠ getCacheKey (genericPrompt t c)) := by
  have hpair : ∀ t c : String,
      professionalPrompt t c ≠ colorfulPrompt t c
      ∧ professionalPrompt t c ≠ minimalPrompt t c
      ∧ professionalPrompt t c ≠ genericPrompt t c
      ∧ colorfulPrompt t c ≠ minimalPrompt t c
      ∧ colorfulPrompt t c ≠ genericPrompt t c
      ∧ minimalPrompt t c ≠ genericPrompt t c := by
    intro t c
    refine ⟨?_, ?_, ?_, ?_, ?_, ?_⟩
    · exact append_ne_append_of_getElem profPre colorPre _ _ 11
        (by decide) (by decide) (by decide)
    · exact append_ne_append_of_getElem profPre minimalPre _ _ 11
        (by decide) (by decide) (by decide)
    · exact append_ne_append_of_getElem profPre genericPre _ _ 1
        (by decide) (by decide) (by decide)
    · exact append_ne_append_of_getElem colorPre minimalPre _ _ 12
        (by decide) (by decide) (by decide)
    · exact append_ne_append_of_getElem colorPre genericPre _ _ 1
        (by decide) (by decide) (by decide)
    · exact append_ne_append_of_getElem minimalPre genericPre _ _ 1
        (by decide) (by decide) (by decide)
  refine ⟨?_, hpair, fun t c => hpair t c⟩
  intro t c
  refine ⟨?_, ?_, ?_, ?_⟩
  · exact prompt_ne_content profPre contentSep profPost t c (by decide)
  · exact prompt_ne_content colorPre contentSep colorPost t c (by decide)
  · exact prompt_ne_content minimalPre contentSep minimalPost t c (by decide)
  · exact prompt_ne_content genericPre contentSep genericPost t c (by decide)

/-- Witness for C9 at a concrete title and body. -/
theorem claim9_witness :
    professionalPrompt "T" "C" ≠ "C"
    ∧ professionalPrompt "T" "C" ≠ colorfulPrompt "T" "C"
    ∧ getCacheKey (colorfulPrompt "T" "C") ≠ getCacheKey (minimalPrompt "T" "C") :=
  ⟨(claim9_prompt_distinctness.1 "T" "C").1,
   (claim9_prompt_distinctness.2.1 "T" "C").1,
   (claim9_prompt_distinctness.2.2 "T" "C").2.2.2.1⟩

/-- Claim C6, counterexample: a document whose single well-formed boundary
marker (it is matched by the marker pattern) carries a whitespace-only
title, so the produced segment's title strips to the empty string —
contradicting the claim that every segment's title is non-empty. -/
theorem claim6_counterexample :
    findAll badTitleDoc.data ≠ []
    ∧ extractFromTxt badTitleDoc = [⟨1, some "", ""⟩] :=
  ⟨by decide, by decide⟩

/-- Claim C6, amended: for every delimited-text document with at least one
boundary-marker match, segmentation yields exactly one segment per match in
document order; each segment's ordinal is the numeral matched in its
marker, its title is the marker's matched title stripped of surrounding
whitespace (non-empty whenever the matched title contains a non-whitespace
character), and its body is the slice from just after its marker to the
start of the next marker (or end of document), trimmed and then truncated
to a prefix of at most 10000 characters. -/
theorem claim6_segmentation (fullText : String)
    (h : findAll fullText.data ≠ []) :
    extractFromTxt fullText
        = ((findAll fullText.data).zip
            (matchEnds fullText.data (findAll fullText.data))).map
            (fun me => pageOfMatch fullText.data me.1 me.2)
    ∧ (extractFromTxt fullText).length = (findAll fullText.data).length
    ∧ (∀ pg ∈ extractFromTxt fullText, pg.content.length ≤ 10000)
    ∧ (∀ me ∈ (findAll fullText.data).zip
          (matchEnds fullText.data (findAll fullText.data)),
        ∃ rest, (pageOfMatch fullText.data me.1 me.2).content.data ++ rest
          = pyStrip (sliceList fullText.data me.1.mend me.2))
    ∧ (∀ m ∈ findAll fullText.data,
        (∃ c ∈ m.titleStr, pySpace c = false) → pyStrip m.titleStr ≠ []) := by
  have hc : ¬ ((findAll fullText.data).isEmpty = true) := by
    cases hfa : findAll fullText.data with
    | nil => exact absurd hfa h
    | cons a tl => simp
  have h1 : extractFromTxt fullText
      = ((findAll fullText.data).zip
          (matchEnds fullText.data (findAll fullText.data))).map
          (fun me => pageOfMatch fullText.data me.1 me.2) := by
    rw [extractFromTxt]
    simp only [if_neg hc]
  have hlen : (matchEnds fullText.data (findAll fullText.data)).length
      = (findAll fullText.data).length := by
    rw [matchEnds]
    have hpos : 0 < (findAll fullText.data).length := List.length_pos.mpr h
    simp [List.length_drop]
    omega
  refine ⟨h1, ?_, ?_, ?_, ?_⟩
  · rw [h1, List.length_map, List.length_zip, hlen, Nat.min_self]
  · intro pg hpg
    rw [h1] at hpg
    obtain ⟨me, _, hme⟩ := List.mem_map.mp hpg
    rw [← hme]
    show ((pyStrip (sliceList fullText.data me.1.mend me.2)).take 10000).length ≤ 10000
    exact (List.length_take_le 10000 _)
  · intro me _
    exact ⟨(pyStrip (sliceList fullText.data me.1.mend me.2)).drop 10000,
      List.take_append_drop 10000 _⟩
  · intro m _ hex
    obtain ⟨c, hc1, hc2⟩ := hex
    exact pyStrip_ne_nil_of_mem hc1 hc2

/-- Witness for C6's amended theorem at a concrete two-marker document. -/
theorem claim6_witness :
    findAll sampleDoc.data ≠ []
    ∧ extractFromTxt sampleDoc
        = ((findAll sampleDoc.data).zip
            (matchEnds sampleDoc.data (findAll sampleDoc.data))).map
            (fun me => pageOfMatch sampleDoc.data me.1 me.2) :=
  ⟨by decide, (claim6_segmentation sampleDoc (by decide)).1⟩

/-- The trace of a fully failed run contains one remote call per attempt. -/
theorem countP_retryTrace : ∀ fuel attempt : Nat,
    (retryTrace fuel attempt).countP isRcall = fuel := by
  intro fuel
  induction fuel with
  | zero => intro attempt; rfl
  | succ n ih =>
    intro attempt
    rw [retryTrace, List.countP_append, List.countP_append, ih]
    by_cases ha : 0 < attempt <;>
      simp [ha, isRcall, List.countP_cons] <;> omega

/-- Either branch of `generate_premium_infographic`: a non-empty cache hit
returned untouched, or a fall-through into the retry loop. -/
theorem generate_cases (oracle : Nat → Outcome) (maxRetries : Nat)
    (d : InfoData) (useCache : Bool) (st : GenState) :
    (∃ bs, useCache = true
        ∧ List.lookup (getCacheKey (visualPrompt d)) st.cache = some bs
        ∧ bs.isEmpty = false
        ∧ generatePremiumInfographic oracle maxRetries d useCache st = (some bs, st))
    ∨ generatePremiumInfographic oracle maxRetries d useCache st
        = genLoop oracle (getCacheKey (visualPrompt d)) useCache maxRetries 0 st := by
  cases hcu : useCache
  case false =>
    right
    rw [generatePremiumInfographic]
    simp
  case true =>
    rcases hlk : List.lookup (getCacheKey (visualPrompt d)) st.cache with _ | bs
    · right
      rw [generatePremiumInfographic]
      simp [hlk]
    · cases hbe : bs.isEmpty
      case false =>
        left
        refine ⟨bs, rfl, rfl, hbe, ?_⟩
        rw [generatePremiumInfographic]
        simp [hlk, hbe]
      case true =>
        right
        rw [generatePremiumInfographic]
        simp [hlk, hbe]

/-- When no attempt of the oracle ever qualifies, the retry loop consumes
all its fuel, records exactly the failure trace, leaves the cache untouched
and returns `none`. -/
theorem genLoop_never_qualifies (oracle : Nat → Outcome) (key : String)
    (useCache : Bool) (hq : ∀ i, qualifies (oracle i) = false) :
    ∀ (fuel attempt : Nat) (st : GenState),
      genLoop oracle key useCache fuel attempt st
        = (none, ⟨st.cache, st.trace ++ retryTrace fuel attempt⟩) := by
  intro fuel
  induction fuel with
  | zero => intro attempt st; simp [genLoop, retryTrace]
  | succ n ih =>
    intro attempt st
    by_cases hatt : 0 < attempt
    all_goals
      rw [genLoop]
      simp only [hatt, if_pos, if_neg, if_true, if_false, ite_true, ite_false,
        eq_self_iff_true, not_true, not_false_iff]
    case pos =>
      rcases ho : oracle (callsMade ⟨st.cache,
          st.trace ++ [Event.wait (min 30 (2 ^ attempt))]⟩) with msg | parts
      · simp only [hatt, if_true, ite_true, ho, ih]
        rw [retryTrace]
        simp [hatt, List.append_assoc]
      · have hq1 := hq (callsMade ⟨st.cache,
          st.trace ++ [Event.wait (min 30 (2 ^ attempt))]⟩)
        rw [ho] at hq1
        rcases hf : firstImage parts with _ | bs
        · simp only [hatt, if_true, ite_true, ho, hf, ih]
          rw [retryTrace]
          simp [hatt, List.append_assoc]
        · have hvb : validBytes bs = false := by
            simpa [qualifies, hf] using hq1
          simp only [hatt, if_true, ite_true, ho, hf, hvb, Bool.false_eq_true,
            if_false, ite_false, ih]
          rw [retryTrace]
          simp [hatt, List.append_assoc]
    case neg =>
      rcases ho : oracle (callsMade st) with msg | parts
      · simp only [hatt, if_false, ite_false, ho, ih]
        rw [retryTrace]
        simp [hatt, List.append_assoc]
      · have hq1 := hq (callsMade st)
        rw [ho] at hq1
        rcases hf : firstImage parts with _ | bs
        · simp only [hatt, if_false, ite_false, ho, hf, ih]
          rw [retryTrace]
          simp [hatt, List.append_assoc]
        · have hvb : validBytes bs = false := by
            simpa [qualifies, hf] using hq1
          simp only [hatt, if_false, ite_false, ho, hf, hvb, Bool.false_eq_true,
            ih]
          rw [retryTrace]
          simp [hatt, List.append_assoc]

/-- Claim C4: on a cache miss with a remote call that never yields a
qualifying image, the orchestrator makes exactly `max_retries` attempts —
no wait before attempt 0 and a wait of `min 30 (2 ^ i)` before each attempt
`i > 0`, as recorded by `retryTrace` — and then returns the
exhausted-retries failure outcome (`none`), never touching the cache. -/
theorem claim4_retry_bound (oracle : Nat → Outcome) (maxRetries : Nat)
    (d : InfoData) (st : GenState)
    (hq : ∀ i, qualifies (oracle i) = false)
    (hmiss : List.lookup (getCacheKey (visualPrompt d)) st.cache = none) :
    generatePremiumInfographic oracle maxRetries d true st
      = (none, ⟨st.cache, st.trace ++ retryTrace maxRetries 0⟩)
    ∧ callsMade (generatePremiumInfographic oracle maxRetries d true st).2
        = callsMade st + maxRetries := by
  have hgen : generatePremiumInfographic oracle maxRetries d true st
      = genLoop oracle (getCacheKey (visualPrompt d)) true maxRetries 0 st := by
    rcases generate_cases oracle maxRetries d true st with ⟨bs, _, hlk, _, _⟩ | h2
    · rw [hmiss] at hlk; exact absurd hlk (by simp)
    · exact h2
  rw [hgen, genLoop_never_qualifies oracle _ true hq maxRetries 0 st]
  refine ⟨rfl, ?_⟩
  show (st.trace ++ retryTrace maxRetries 0).countP isRcall = _
  rw [List.countP_append, countP_retryTrace]
  rfl

/-- Witness for C4: three failed attempts against an always-raising remote,
from a fresh state. -/
theorem claim4_witness :
    qualifies (errOracle 0) = false
    ∧ List.lookup (getCacheKey (visualPrompt emptyInfo)) st0.cache = none
    ∧ generatePremiumInfographic errOracle 3 emptyInfo true st0
        = (none, ⟨st0.cache, st0.trace ++ retryTrace 3 0⟩)
    ∧ callsMade (generatePremiumInfographic errOracle 3 emptyInfo true st0).2
        = callsMade st0 + 3 :=
  ⟨rfl, rfl,
   (claim4_retry_bound errOracle 3 emptyInfo st0 (fun _ => rfl) rfl).1,
   (claim4_retry_bound errOracle 3 emptyInfo st0 (fun _ => rfl) rfl).2⟩

/-- The retry loop either leaves the cache untouched, or (only with
`use_cache` on) prepends exactly one entry: the validated bytes it returns,
under the request's key. -/
theorem genLoop_cache_writes (oracle : Nat → Outcome) (key : String)
    (useCache : Bool) :
    ∀ (fuel attempt : Nat) (st : GenState),
      (genLoop oracle key useCache fuel attempt st).2.cache = st.cache
      ∨ (useCache = true ∧ ∃ bs,
          (genLoop oracle key useCache fuel attempt st).1 = some bs
          ∧ validBytes bs = true
          ∧ (genLoop oracle key useCache fuel attempt st).2.cache
              = (key, bs) :: st.cache) := by
  intro fuel
  induction fuel with
  | zero => intro attempt st; left; simp [genLoop]
  | succ n ih =>
    intro attempt st
    by_cases hatt : 0 < attempt
    case pos =>
      rcases ho : oracle (callsMade ⟨st.cache,
          st.trace ++ [Event.wait (min 30 (2 ^ attempt))]⟩) with msg | parts
      · rw [genLoop]
        simp only [hatt, ite_true, if_true, ho]
        exact ih _ _
      · rcases hf : firstImage parts with _ | bs
        · rw [genLoop]
          simp only [hatt, ite_true, if_true, ho, hf]
          exact ih _ _
        · cases hvb : validBytes bs
          case false =>
            rw [genLoop]
            simp only [hatt, ite_true, if_true, ho, hf, hvb,
              Bool.false_eq_true, ite_false, if_false]
            exact ih _ _
          case true =>
            rw [genLoop]
            simp only [hatt, ite_true, if_true, ho, hf, hvb]
            cases useCache
            case false => left; simp
            case true => right; exact ⟨rfl, bs, by simp, hvb, by simp⟩
    case neg =>
      rcases ho : oracle (callsMade st) with msg | parts
      · rw [genLoop]
        simp only [hatt, ite_false, if_false, ho]
        exact ih _ _
      · rcases hf : firstImage parts with _ | bs
        · rw [genLoop]
          simp only [hatt, ite_false, if_false, ho, hf]
          exact ih _ _
        · cases hvb : validBytes bs
          case false =>
            rw [genLoop]
            simp only [hatt, ite_false, if_false, ho, hf, hvb,
              Bool.false_eq_true]
            exact ih _ _
          case true =>
            rw [genLoop]
            simp only [hatt, ite_false, if_false, ho, hf, hvb]
            cases useCache
            case false => left; simp
            case true => right; exact ⟨rfl, bs, by simp, hvb, by simp⟩

/-- Claim C5: a cache write happens only for a validated success.  After any
run of the orchestrator, either the cache is exactly as before, or
`use_cache` was on and exactly one entry was added: the returned image
bytes, which passed the strict 1000-byte validity threshold.  No failed or
undersized attempt is ever written. -/
theorem claim5_cache_validated (oracle : Nat → Outcome) (maxRetries : Nat)
    (d : InfoData) (useCache : Bool) (st : GenState) :
    (generatePremiumInfographic oracle maxRetries d useCache st).2.cache = st.cache
    ∨ (useCache = true ∧ ∃ bs,
        (generatePremiumInfographic oracle maxRetries d useCache st).1 = some bs
        ∧ validBytes bs = true ∧ 1000 < bs.length
        ∧ (generatePremiumInfographic oracle maxRetries d useCache st).2.cache
            = (getCacheKey (visualPrompt d), bs) :: st.cache) := by
  rcases generate_cases oracle maxRetries d useCache st with ⟨bs, _, _, _, heq⟩ | heq
  · left; rw [heq]
  · rcases genLoop_cache_writes oracle (getCacheKey (visualPrompt d)) useCache
        maxRetries 0 st with h | ⟨hcu, bs, h1, h2, h3⟩
    · left; rw [heq]; exact h
    · right
      have hlen : 1000 < bs.length := by
        have h4 := h2
        simp [validBytes, Bool.and_eq_true] at h4
        exact h4.2
      exact ⟨hcu, bs, by rw [heq]; exact h1, h2, hlen, by rw [heq]; exact h3⟩

/-- When the very first attempt yields a qualifying image, the retry loop
returns it after exactly one remote call, caching it exactly when
`use_cache` is on. -/
theorem genLoop_first_success (oracle : Nat → Outcome) (key : String)
    (useCache : Bool) (n : Nat) (st : GenState) (parts : List RPart)
    (bs : List Nat)
    (ho : oracle (callsMade st) = Outcome.ok parts)
    (hf : firstImage parts = some bs)
    (hvb : validBytes bs = true) :
    genLoop oracle key useCache (n + 1) 0 st
      = (some bs,
         if useCache then
           (⟨(key, bs) :: st.cache, st.trace ++ [Event.rcall]⟩ : GenState)
         else ⟨st.cache, st.trace ++ [Event.rcall]⟩) := by
  rw [genLoop]
  simp only [Nat.lt_irrefl, ite_false, if_false, ho, hf, hvb, ite_true, if_true]

/-- Claim C3: with `use_cache` on, a cache hit (a stored non-empty entry for
the request's digest) is returned immediately with the state untouched — no
remote call; consequently, when the remote's next response qualifies,
generating twice with the identical request issues at most one remote call
in total, the second invocation changes nothing and returns bytes identical
to the first result. -/
theorem claim3_cache_idempotence (oracle : Nat → Outcome) (maxRetries : Nat)
    (d : InfoData) (st : GenState)
    (hR : 1 ≤ maxRetries)
    (hq : qualifies (oracle (callsMade st)) = true) :
    (∀ bs, List.lookup (getCacheKey (visualPrompt d)) st.cache = some bs →
        bs.isEmpty = false →
        generatePremiumInfographic oracle maxRetries d true st = (some bs, st))
    ∧ (∃ bs,
        (generatePremiumInfographic oracle maxRetries d true st).1 = some bs
        ∧ (generatePremiumInfographic oracle maxRetries d true
            (generatePremiumInfographic oracle maxRetries d true st).2).1 = some bs
        ∧ (generatePremiumInfographic oracle maxRetries d true
            (generatePremiumInfographic oracle maxRetries d true st).2).2
          = (generatePremiumInfographic oracle maxRetries d true st).2
        ∧ callsMade (generatePremiumInfographic oracle maxRetries d true st).2
          ≤ callsMade st + 1) := by
  have hA : ∀ bs, List.lookup (getCacheKey (visualPrompt d)) st.cache = some bs →
      bs.isEmpty = false →
      generatePremiumInfographic oracle maxRetries d true st = (some bs, st) := by
    intro bs hlk hbe
    rw [generatePremiumInfographic]
    simp [hlk, hbe]
  refine ⟨hA, ?_⟩
  obtain ⟨n, rfl⟩ : ∃ n, maxRetries = n + 1 := ⟨maxRetries - 1, by omega⟩
  rcases ho : oracle (callsMade st) with msg | parts
  · rw [ho] at hq; simp [qualifies] at hq
  rcases hf : firstImage parts with _ | bs2
  · rw [ho] at hq; simp [qualifies, hf] at hq
  have hvb : validBytes bs2 = true := by
    rw [ho] at hq; simpa [qualifies, hf] using hq
  have hbe2 : bs2.isEmpty = false := by
    have h4 := hvb
    simp [validBytes, Bool.and_eq_true] at h4
    rcases bs2 with _ | ⟨a, tl⟩
    · exact absurd rfl h4.1
    · rfl
  have hmissCase :
      generatePremiumInfographic oracle (n + 1) d true st
        = genLoop oracle (getCacheKey (visualPrompt d)) true (n + 1) 0 st →
      (∃ bs,
        (generatePremiumInfographic oracle (n + 1) d true st).1 = some bs
        ∧ (generatePremiumInfographic oracle (n + 1) d true
            (generatePremiumInfographic oracle (n + 1) d true st).2).1 = some bs
        ∧ (generatePremiumInfographic oracle (n + 1) d true
            (generatePremiumInfographic oracle (n + 1) d true st).2).2
          = (generatePremiumInfographic oracle (n + 1) d true st).2
        ∧ callsMade (generatePremiumInfographic oracle (n + 1) d true st).2
          ≤ callsMade st + 1) := by
    intro hgen
    have hrun : generatePremiumInfographic oracle (n + 1) d true st
        = (some bs2, ⟨(getCacheKey (visualPrompt d), bs2) :: st.cache,
            st.trace ++ [Event.rcall]⟩) := by
      rw [hgen, genLoop_first_success oracle _ true n st parts bs2 ho hf hvb]
      simp
    have hsecond : generatePremiumInfographic oracle (n + 1) d true
        (⟨(getCacheKey (visualPrompt d), bs2) :: st.cache,
          st.trace ++ [Event.rcall]⟩ : GenState)
        = (some bs2, ⟨(getCacheKey (visualPrompt d), bs2) :: st.cache,
            st.trace ++ [Event.rcall]⟩) := by
      rw [generatePremiumInfographic]
      simp [List.lookup_cons_self, hbe2]
    refine ⟨bs2, by rw [hrun], ?_, ?_, ?_⟩
    · rw [hrun]; exact congrArg Prod.fst hsecond
    · rw [hrun]; exact congrArg Prod.snd hsecond
    · rw [hrun]
      show (st.trace ++ [Event.rcall]).countP isRcall ≤ _
      rw [List.countP_append]
      simp [isRcall, List.countP_cons, callsMade]
  rcases hlk : List.lookup (getCacheKey (visualPrompt d)) st.cache with _ | bs0
  · rcases generate_cases oracle (n + 1) d true st with ⟨bs, _, hlk2, _, _⟩ | hgen
    · rw [hlk] at hlk2; exact absurd hlk2 (by simp)
    · exact hmissCase hgen
  · cases hbe : bs0.isEmpty
    case false =>
      have hrun := hA bs0 hlk hbe
      exact ⟨bs0, by rw [hrun], by rw [hrun]; rw [hrun], by rw [hrun]; rw [hrun],
        by rw [hrun]; show callsMade st ≤ callsMade st + 1; omega⟩
    case true =>
      rcases generate_cases oracle (n + 1) d true st with ⟨bs, _, hlk2, hbe2x, _⟩ | hgen
      · rw [hlk] at hlk2
        have hx : bs = bs0 := by
          have := hlk2
          simp at this
          exact this.symm
        rw [hx] at hbe2x
        rw [hbe] at hbe2x
        exact absurd hbe2x (by simp)
      · exact hmissCase hgen

/-- Witness for C3: a first-attempt-success oracle from a warm cache state —
the stored 1200-byte entry is returned untouched. -/
theorem claim3_witness :
    1 ≤ 3
    ∧ qualifies (okOracle (callsMade stc)) = true
    ∧ List.lookup (getCacheKey (visualPrompt emptyInfo)) stc.cache = some cachedBytes
    ∧ cachedBytes.isEmpty = false
    ∧ generatePremiumInfographic okOracle 3 emptyInfo true stc = (some cachedBytes, stc) := by
  have hq : qualifies (okOracle (callsMade stc)) = true := by
    simp [qualifies, okOracle, firstImage, validBytes]
  have hlk : List.lookup (getCacheKey (visualPrompt emptyInfo)) stc.cache
      = some cachedBytes := by
    simp only [stc]
    exact List.lookup_cons_self
  have hbe : cachedBytes.isEmpty = false := rfl
  exact ⟨by omega, hq, hlk, hbe,
    (claim3_cache_idempotence okOracle 3 emptyInfo stc (by omega) hq).1
      cachedBytes hlk hbe⟩

end D2P
